import Mathlib

/-!
Verification of the risk-agent wallet-analysis pipeline.

The definitions below are a shallow embedding of the TypeScript sources:
JavaScript numbers are modelled as `ℚ`, JS `Math.min`/`Math.max`/`Math.round`
by the helpers below, fallible effects by `Option`/`Except`, and the dynamic
JSON payloads that the analyzers receive by explicit structures with
`Option` fields (an absent/"falsy" field is `none` resp. `""`/`0`).

Source files embedded:
- scripts/analyseAssets.ts       (class AssetAnalyzer)
- scripts/analyseProtocols.ts    (class ProtocolAnalyzer)
- the pool analyzer              (class PoolAnalyzer)
- the data manager               (class DataManager)
- the final aggregator           (class FinalRiskAnalyzer)
-/

namespace RiskAgent

/-! ### JavaScript helpers -/

/-- Embedding of `Math.max(0, Math.min(100, x))`, the clamp used throughout. -/
def clamp0100 (x : ℚ) : ℚ := max 0 (min 100 x)

/-- Embedding of `Math.round(x)` (round half toward positive infinity). -/
def jsRound (x : ℚ) : ℤ := ⌊x + 1 / 2⌋

/-- Embedding of `x || d` on a possibly-absent JS number: `undefined` and `0`
are falsy, so both select the default. -/
def jsOrNum (x : Option ℚ) (d : ℚ) : ℚ :=
  match x with
  | some v => if v = 0 then d else v
  | none => d

/-- Embedding of `s.includes(pat)` on JS strings: the empty pattern always
matches; otherwise `pat` occurs in `s` iff splitting `s` on `pat` yields more
than one piece. -/
def jsIncludes (s pat : String) : Bool :=
  pat.isEmpty || !((s.splitOn pat).length == 1)

theorem clamp0100_nonneg (x : ℚ) : 0 ≤ clamp0100 x := le_max_left 0 _

theorem clamp0100_le (x : ℚ) : clamp0100 x ≤ 100 :=
  max_le (by norm_num) (min_le_left 100 x)

theorem jsRound_nonneg {x : ℚ} (h : 0 ≤ x) : 0 ≤ jsRound x := by
  unfold jsRound
  have : (0 : ℚ) ≤ x + 1 / 2 := by linarith
  exact_mod_cast Int.le_floor.mpr (by exact_mod_cast this)

theorem jsRound_le_of_le {x : ℚ} (h : x ≤ 100) : jsRound x ≤ 100 := by
  unfold jsRound
  have : x + 1 / 2 < ((100 + 1 : ℤ) : ℚ) := by push_cast; linarith
  exact Int.lt_add_one_iff.mp (Int.floor_lt.mpr this)

/-! ### Asset analyzer data model (scripts/analyseAssets.ts) -/

/-- An asset entry produced by `combineMultiChainAssetData`: the `type` field
is `'native'`, `'token'` or `'defi'`. -/
inductive AssetType
  | native
  | token
  | defi
deriving DecidableEq, Repr

/-- One entry of the combined `assets` list handed to the scorer.  Fields
mirror the object literals built by `combineMultiChainAssetData`. -/
structure Asset where
  chain : String
  symbol : String
  type : AssetType
  verified : Bool
  possibleSpam : Bool
  isEstablished : Bool
  hasLowBalance : Bool
  isLikelyAirdrop : Bool
deriving DecidableEq, Repr

/-- `knowledgeBase.riskIndicators.scamPatterns` from the asset analyzer. -/
def scamPatterns : List String :=
  ["test", "fake", "scam", "moon", "safe", "inu", "elon", "pump", "rug",
   "airdrop", "giveaway", "shiba", "baby", "pepe", "token", "launch", "zero tax"]

/-- The scam filter of `calculateWeightedRiskScore` step 1: established tokens
are exempt; otherwise `possibleSpam || isLikelyAirdrop ||` a scam-pattern
substring match on the (lower-cased, truthy) symbol. -/
def isScamToken (a : Asset) : Bool :=
  if a.isEstablished then false
  else
    a.possibleSpam || a.isLikelyAirdrop ||
      scamPatterns.any (fun pattern =>
        !a.symbol.isEmpty && jsIncludes a.symbol.toLower pattern.toLower)

/-- Scoring weights of the asset analyzer (`this.weights`). -/
def weightScamTokenQuantity : ℚ := 2

def weightVerifiedToken : ℚ := -1

def weightEstablishedToken : ℚ := -2

def weightTokenDiversity : ℚ := -1

def weightOverDiversification : ℚ := 1

/-- The dust condition of step 2: `dustTokens.length >= scamTokens.length * 0.8`. -/
def mostlyDust (scamTokens : List Asset) : Bool :=
  decide (((scamTokens.length : ℚ) * 0.8) ≤ ((scamTokens.filter (fun t => t.hasLowBalance)).length : ℚ))

/-- Step 2 of `calculateWeightedRiskScore`: the aggregate scam penalty.
`scamPenalty = scamTokens.length * 2`, halved (`*= 0.5`) when the flagged
tokens are mostly dust; no penalty is added when no token is flagged. -/
def scamPenalty (scamTokens : List Asset) : ℚ :=
  if 0 < scamTokens.length then
    let penalty : ℚ := (scamTokens.length : ℚ) * weightScamTokenQuantity
    if mostlyDust scamTokens then penalty * 0.5 else penalty
  else 0

/-- Input of `calculateWeightedRiskScore`: the combined multi-chain asset data
(`assetCount`, `assets`, and `multiChain.totalChains`). -/
structure AssetData where
  assetCount : ℕ
  assets : List Asset
  totalChains : ℕ

/-- One element of `details.scamTokens` (the projection built in step 2). -/
structure ScamTokenDetail where
  symbol : String
  chain : String
  isLikelyAirdrop : Bool
  hasLowBalance : Bool
deriving DecidableEq, Repr

/-- The `details` record returned by `calculateWeightedRiskScore`.  The source
initialises the counts to `0`/`[]` and overwrites them inside the guarded
blocks; since a skipped block means the corresponding list was empty, writing
the lengths unconditionally is extensionally identical. -/
structure ScoringDetails where
  scamTokens : List ScamTokenDetail
  establishedTokens : ℕ
  verifiedTokens : ℕ
  totalTokens : ℕ
  scamTokenCount : ℕ
deriving DecidableEq, Repr

/-- Return value of `calculateWeightedRiskScore`. -/
structure ScoringResult where
  score : ℚ
  factors : List String
  details : ScoringDetails

/-- The signed adjustments accumulated into `baseScore` by steps 2-8 of
`calculateWeightedRiskScore`, in evaluation order. -/
def assetBaseScore (data : AssetData) : ℚ :=
  let scamTokens := data.assets.filter isScamToken
  let establishedTokens := data.assets.filter (fun a => a.isEstablished)
  let verifiedTokens := data.assets.filter (fun a => a.verified && !a.isEstablished)
  let defiPositions := data.assets.filter (fun a => a.type == AssetType.defi)
  let meaningfulTokens := (data.assets.filter (fun a => !a.hasLowBalance && !a.isLikelyAirdrop)).length
  scamPenalty scamTokens
    + (if 0 < establishedTokens.length then weightEstablishedToken * (establishedTokens.length : ℚ) else 0)
    + (if 0 < verifiedTokens.length then weightVerifiedToken * (verifiedTokens.length : ℚ) else 0)
    + (if 5 ≤ meaningfulTokens ∧ meaningfulTokens ≤ 20 then
        weightTokenDiversity * (min 10 (meaningfulTokens : ℚ))
      else if meaningfulTokens < 3 then 5 else 0)
    + (if 100 < data.assetCount then
        min 15 (((data.assetCount : ℚ) - 100) * weightOverDiversification)
      else if 50 < data.assetCount then 5 else 0)
    + (if 1 < data.totalChains then -3 else 0)
    + (if 0 < defiPositions.length then -2 else 0)

/-- The `factors` strings pushed by steps 2-8 of `calculateWeightedRiskScore`,
in evaluation order. -/
def assetFactors (data : AssetData) : List String :=
  let scamTokens := data.assets.filter isScamToken
  let establishedTokens := data.assets.filter (fun a => a.isEstablished)
  let verifiedTokens := data.assets.filter (fun a => a.verified && !a.isEstablished)
  let defiPositions := data.assets.filter (fun a => a.type == AssetType.defi)
  let meaningfulTokens := (data.assets.filter (fun a => !a.hasLowBalance && !a.isLikelyAirdrop)).length
  (if 0 < scamTokens.length then
      if mostlyDust scamTokens then
        [toString scamTokens.length ++ " suspected scam tokens (mostly dust/airdrops)"]
      else
        [toString scamTokens.length ++ " suspected scam tokens detected"]
    else [])
  ++ (if 0 < establishedTokens.length then
      [toString establishedTokens.length ++ " established tokens ("
        ++ toString (min 20 (establishedTokens.length * 2)) ++ " risk reduction)"]
    else [])
  ++ (if 0 < verifiedTokens.length then
      [toString verifiedTokens.length ++ " additional verified tokens ("
        ++ toString (min 15 (verifiedTokens.length * 1)) ++ " risk reduction)"]
    else [])
  ++ (if 5 ≤ meaningfulTokens ∧ meaningfulTokens ≤ 20 then
      ["Good token diversity (" ++ toString meaningfulTokens ++ " meaningful tokens)"]
    else if meaningfulTokens < 3 then
      ["Limited token diversity (" ++ toString meaningfulTokens ++ " meaningful tokens)"]
    else [])
  ++ (if 100 < data.assetCount then
      ["Over-diversified portfolio (" ++ toString data.assetCount ++ " total tokens)"]
    else if 50 < data.assetCount then
      ["High token count (" ++ toString data.assetCount ++ " total tokens)"]
    else [])
  ++ (if 1 < data.totalChains then
      ["Multi-chain diversification (" ++ toString data.totalChains ++ " chains)"]
    else [])
  ++ (if 0 < defiPositions.length then
      ["DeFi participation (" ++ toString defiPositions.length ++ " positions)"]
    else [])

/-- Embedding of `calculateWeightedRiskScore`: the final score is
`Math.max(0, Math.min(100, baseScore + 40))` (base 40 for neutral risk). -/
def calculateWeightedRiskScore (data : AssetData) : ScoringResult :=
  { score := clamp0100 (assetBaseScore data + 40)
    factors := assetFactors data
    details :=
      { scamTokens := (data.assets.filter isScamToken).map
          (fun t => ⟨t.symbol, t.chain, t.isLikelyAirdrop, t.hasLowBalance⟩)
        establishedTokens := (data.assets.filter (fun a => a.isEstablished)).length
        verifiedTokens := (data.assets.filter (fun a => a.verified && !a.isEstablished)).length
        totalTokens := data.assetCount
        scamTokenCount := (data.assets.filter isScamToken).length } }

/-! ### Asset analyzer result paths -/

/-- Return type of the asset analyzer (`AssetAnalysisResult`). -/
structure AssetAnalysisResult where
  gpt_analysis : String
  risk_score : ℚ
  key_findings : List String
  recommendations : List String

/-- A structured reply parsed from the reasoning service (`JSON.parse` of the
final message).  `key_findings`/`recommendations` may be absent (`|| []`). -/
structure RawSubAnalysis where
  gpt_analysis : String
  risk_score : ℚ
  key_findings : Option (List String)
  recommendations : Option (List String)

/-- Embedding of `generateFallbackAssetAnalysis`: reuses the deterministic
scorer, rounds its score, and assembles recommendations and the summary text
from the scoring details. -/
def generateFallbackAssetAnalysis (data : AssetData) : AssetAnalysisResult :=
  let scoringResult := calculateWeightedRiskScore data
  let details := scoringResult.details
  let recommendations :=
    (if 0 < details.scamTokenCount then
        if 20 < details.scamTokenCount then
          ["Consider cleaning up " ++ toString details.scamTokenCount
            ++ " suspected scam tokens - many appear to be airdropped spam"]
        else
          ["Monitor " ++ toString details.scamTokenCount
            ++ " suspected scam tokens for any unusual activity"]
      else [])
    ++ (if details.establishedTokens < 3 then
        ["Consider adding more established tokens (ETH, USDC, BTC) for better stability"]
      else [])
    ++ (if 100 < details.totalTokens then
        ["Consider consolidating token holdings to reduce management complexity"]
      else if details.totalTokens < 5 then
        ["Consider diversifying with additional quality tokens"]
      else [])
    ++ (if data.totalChains = 1 then
        ["Consider multi-chain diversification to reduce single-chain risk"]
      else [])
  let analysisText :=
    "Simplified quantity-based analysis of wallet tokens. Portfolio contains "
      ++ toString data.assetCount ++ " tokens across " ++ toString data.totalChains
      ++ " blockchain(s)."
    ++ (if 0 < details.establishedTokens then
        " Includes " ++ toString details.establishedTokens
          ++ " established tokens providing stability."
      else "")
    ++ (if 0 < details.scamTokenCount then
        " Detected " ++ toString details.scamTokenCount
          ++ " suspected scam tokens, likely airdropped spam."
      else "")
    ++ (if 0 < details.verifiedTokens then
        " Contains " ++ toString details.verifiedTokens
          ++ " additional verified token contracts."
      else "")
  { gpt_analysis := analysisText
    risk_score := ((jsRound scoringResult.score : ℤ) : ℚ)
    key_findings := scoringResult.factors
    recommendations := recommendations }

/-- Embedding of `generateGPTAssetAnalysis`.  `reply` is the parsed structured
reply of the reasoning service; `none` covers every failure of that call
(transport error, malformed JSON, iteration cap exceeded), and a falsy
`gpt_analysis` fails validation — all failures fall back to
`generateFallbackAssetAnalysis`.  On success the returned score is
`Math.min(100, Math.max(0, analysis.risk_score))`. -/
def generateGPTAssetAnalysis (data : AssetData) (reply : Option RawSubAnalysis) :
    AssetAnalysisResult :=
  match reply with
  | some analysis =>
    if analysis.gpt_analysis = "" then generateFallbackAssetAnalysis data
    else
      { gpt_analysis := analysis.gpt_analysis
        risk_score := min 100 (max 0 analysis.risk_score)
        key_findings := analysis.key_findings.getD []
        recommendations := analysis.recommendations.getD [] }
  | none => generateFallbackAssetAnalysis data

/-! ### Data manager (class DataManager) -/

/-- Sub-analysis record persisted under `analysis.assets|pools|protocols`. -/
structure SubAnalysis where
  gpt_analysis : String
  risk_score : ℚ
  key_findings : List String
  recommendations : List String

/-- The `analysis` field of a persisted wallet report; each sub-analysis is
optional until its stage has run. -/
structure WalletAnalysis where
  assets : Option SubAnalysis
  pools : Option SubAnalysis
  protocols : Option SubAnalysis

/-- Persisted wallet report (`WalletAnalysisData`); `last_updated` is the
timestamp in milliseconds since the epoch. -/
structure WalletAnalysisData where
  address : String
  last_updated : ℚ
  analysis : WalletAnalysis

/-- A storage-layer error (a thrown `fs` exception). -/
structure IOErr where
  message : String

/-- What the file system holds for an address when `loadWalletData` runs:
no file, a file whose read or parse throws, or readable content. -/
inductive FileReadState
  | missing
  | failure (e : IOErr)
  | content (d : WalletAnalysisData)

/-- Embedding of `loadWalletData`: a missing file returns `null`; a read or
parse failure is caught inside the function, logged, and ALSO returns `null`;
only a successful read yields data.  The `Except` codomain records that the
function could in principle surface an `IOErr` — it never does. -/
def loadWalletData (file : FileReadState) : Except IOErr (Option WalletAnalysisData) :=
  match file with
  | .missing => .ok none
  | .failure _ => .ok none
  | .content d => .ok (some d)

/-- Outcome of the underlying `fs.writeFileSync` when `saveWalletData` runs. -/
inductive WriteOutcome
  | success
  | failure (e : IOErr)

/-- Embedding of `saveWalletData`: a write failure is logged and re-thrown
(`throw error`), so storage failures on save DO surface to the caller. -/
def saveWalletData (write : WriteOutcome) : Except IOErr Unit :=
  match write with
  | .success => .ok ()
  | .failure e => .error e

/-- Embedding of `shouldRefreshData`: absent data is always stale; otherwise
`diffMinutes = (now - lastUpdated) / (1000 * 60)` must exceed `maxAgeMinutes`
(default 30).  Timestamps are in milliseconds. -/
def shouldRefreshData (now : ℚ) (walletData : Option WalletAnalysisData)
    (maxAgeMinutes : ℚ := 30) : Bool :=
  match walletData with
  | none => true
  | some d =>
    let diffMinutes := (now - d.last_updated) / (1000 * 60)
    decide (maxAgeMinutes < diffMinutes)

/-! ### Final aggregator (class FinalRiskAnalyzer) -/

/-- One validated alert of the final analysis. -/
structure Alert where
  severity : String
  message : String
deriving DecidableEq, Repr

/-- A raw alert entry as found in the parsed reasoning-service reply: either
not an object at all, or an object with possibly-absent `severity` and
`message` fields (`message = some ""` models an empty, hence falsy, string). -/
inductive RawAlert
  | nonObject
  | obj (severity : Option String) (message : Option String)

/-- Validated multi-chain info block of the final analysis. -/
structure MultiChainInfo where
  totalChainsActive : ℚ
  chainsWithActivity : List String
  crossChainRisks : List String
  chainSpecificRisks : List (String × List String)

/-- Raw multi-chain info from the reasoning-service reply. -/
structure RawMultiChainInfo where
  totalChainsActive : Option ℚ
  chainsWithActivity : Option (List String)
  crossChainRisks : Option (List String)
  chainSpecificRisks : Option (List (String × List String))

/-- The raw parsed reply handed to `validateAndNormalizeFinalAnalysis`.
A `none` field models an absent (or, for lists, non-array) JSON field. -/
structure RawFinalAnalysis where
  overall_risk_score : Option ℚ
  risk_level : Option String
  confidence_score : Option ℚ
  gpt_summary : Option String
  key_risks : Option (List String)
  recommendations : Option (List String)
  alerts : List RawAlert
  multiChainInfo : Option RawMultiChainInfo

/-- Validated final analysis (`FinalRiskAnalysis`). -/
structure FinalRiskAnalysis where
  overall_risk_score : ℚ
  risk_level : String
  confidence_score : ℚ
  gpt_summary : String
  key_risks : List String
  recommendations : List String
  alerts : List Alert
  multiChainInfo : Option MultiChainInfo

/-- The argument of `normalizeRiskLevel`, which accepts `string | number`. -/
inductive StrOrNum
  | str (s : String)
  | num (q : ℚ)

/-- The five valid risk levels. -/
def riskLevelNames : List String := ["very-low", "low", "medium", "high", "very-high"]

/-- The threshold chain of `normalizeRiskLevel` applied to a numeric score. -/
def bucketForScore (score : ℚ) : String :=
  if score ≤ 20 then "very-low"
  else if score ≤ 40 then "low"
  else if score ≤ 60 then "medium"
  else if score ≤ 80 then "high"
  else "very-high"

/-- Embedding of `normalizeRiskLevel`: a string that already is a valid level
is returned as is; any other string falls back to score 50 (`medium`); a
number is bucketed by the threshold chain. -/
def normalizeRiskLevel (input : StrOrNum) : String :=
  match input with
  | .str s => if s ∈ riskLevelNames then s else bucketForScore 50
  | .num q => bucketForScore q

/-- The valid alert severities. -/
def alertSeverities : List String := ["low", "medium", "high", "critical"]

/-- The filter of `validateAlerts`: keep objects whose `message` is truthy. -/
def keepAlert : RawAlert → Bool
  | .nonObject => false
  | .obj _ none => false
  | .obj _ (some m) => !(m == "")

/-- The map of `validateAlerts`: an unrecognized (or absent) severity becomes
`'medium'`; the message is stringified.  (On entries dropped by `keepAlert`
this function is never consulted; the `""` default mirrors `String()` of an
absent value only formally.) -/
def normalizeAlert : RawAlert → Alert
  | .nonObject => ⟨"medium", ""⟩
  | .obj sev msg =>
    { severity :=
        match sev with
        | some s => if s ∈ alertSeverities then s else "medium"
        | none => "medium"
      message := msg.getD "" }

/-- Embedding of `validateAlerts`: filter to entries with a message, coerce
severities, and keep at most the first 10 alerts. -/
def validateAlerts (alerts : List RawAlert) : List Alert :=
  (((alerts.filter keepAlert).map normalizeAlert).take 10)

/-- The fallback string of `risk_level`: `analysis.risk_level ||
analysis.overall_risk_score || 50` (an empty string and the score 0 are
falsy). -/
def riskLevelInput (raw : RawFinalAnalysis) : StrOrNum :=
  match raw.risk_level with
  | some s => if s = "" then .num (jsOrNum raw.overall_risk_score 50) else .str s
  | none => .num (jsOrNum raw.overall_risk_score 50)

/-- Embedding of `validateAndNormalizeFinalAnalysis`: clamps both scores into
[0,100] (defaulting falsy values to 50), normalizes the risk level, defaults
the summary, keeps only array-valued lists, validates alerts, and normalizes
the optional multi-chain block. -/
def validateAndNormalizeFinalAnalysis (analysis : RawFinalAnalysis) : FinalRiskAnalysis :=
  { overall_risk_score := max 0 (min 100 (jsOrNum analysis.overall_risk_score 50))
    risk_level := normalizeRiskLevel (riskLevelInput analysis)
    confidence_score := max 0 (min 100 (jsOrNum analysis.confidence_score 50))
    gpt_summary :=
      match analysis.gpt_summary with
      | some s => if s = "" then "Risk analysis completed with limited data." else s
      | none => "Risk analysis completed with limited data."
    key_risks := analysis.key_risks.getD []
    recommendations := analysis.recommendations.getD []
    alerts := validateAlerts analysis.alerts
    multiChainInfo :=
      analysis.multiChainInfo.map (fun m =>
        { totalChainsActive := max 0 (jsOrNum m.totalChainsActive 0)
          chainsWithActivity := m.chainsWithActivity.getD []
          crossChainRisks := m.crossChainRisks.getD []
          chainSpecificRisks := m.chainSpecificRisks.getD [] }) }

/-- The number of available sub-analyses counted by
`generateFallbackFinalAnalysis` (`availableAnalyses.length`). -/
def countAvailable (a : WalletAnalysis) : ℕ :=
  (match a.assets with | some _ => 1 | none => 0)
    + (match a.pools with | some _ => 1 | none => 0)
    + (match a.protocols with | some _ => 1 | none => 0)

/-- Embedding of `generateFallbackFinalAnalysis`: average the available
sub-scores (50 when none), bucket the risk level, and set
`confidence = Math.max(30, Math.min(70, availableAnalyses.length * 25))`;
a high average raises one automatic alert. -/
def generateFallbackFinalAnalysis (walletData : WalletAnalysisData) : FinalRiskAnalysis :=
  let analysisScores : List ℚ :=
    (match walletData.analysis.assets with | some a => [a.risk_score] | none => [])
      ++ (match walletData.analysis.pools with | some a => [a.risk_score] | none => [])
      ++ (match walletData.analysis.protocols with | some a => [a.risk_score] | none => [])
  let availableAnalyses : List String :=
    (match walletData.analysis.assets with | some _ => ["assets"] | none => [])
      ++ (match walletData.analysis.pools with | some _ => ["pools"] | none => [])
      ++ (match walletData.analysis.protocols with | some _ => ["protocols"] | none => [])
  let averageScore : ℚ :=
    if 0 < analysisScores.length then
      ((jsRound (analysisScores.sum / (analysisScores.length : ℚ)) : ℤ) : ℚ)
    else 50
  let confidence : ℚ := max 30 (min 70 ((availableAnalyses.length : ℚ) * 25))
  { overall_risk_score := averageScore
    risk_level := normalizeRiskLevel (.num averageScore)
    confidence_score := confidence
    gpt_summary :=
      "Automated risk analysis based on " ++ String.intercalate ", " availableAnalyses
        ++ " analysis. Overall risk score: " ++ toString averageScore ++ "/100."
    key_risks := ["Limited data analysis fallback"]
    recommendations :=
      ["Run comprehensive analysis with all data sources",
       "Review individual analysis components"]
    alerts :=
      if 70 < averageScore then
        [{ severity := if 85 < averageScore then "critical" else "high"
           message := "High risk detected - requires immediate attention" }]
      else []
    multiChainInfo := none }

/-! ### Protocol analyzer (scripts/analyseProtocols.ts) -/

/-- A categorized transaction interaction, enhanced with the failure flag
(`is_failed: tx.receipt_status === '0'`).  The USD value estimate is passed
to `isHighRiskTransaction` separately, as in the source. -/
structure ProtocolInteraction where
  type : String
  protocol : String
  riskLevel : String
  chain : String
  is_failed : Bool

/-- `HIGH_VALUE_THRESHOLD` of `isHighRiskTransaction` ($10k+). -/
def HIGH_VALUE_THRESHOLD : ℚ := 10000

/-- `MEDIUM_VALUE_THRESHOLD` of `isHighRiskTransaction` ($1k+). -/
def MEDIUM_VALUE_THRESHOLD : ℚ := 1000

/-- Embedding of `isHighRiskTransaction`: three guarded early returns, else
false. -/
def isHighRiskTransaction (interaction : ProtocolInteraction) (valueUsd : ℚ) : Bool :=
  if HIGH_VALUE_THRESHOLD < valueUsd ∧ interaction.riskLevel = "high" then true
  else if MEDIUM_VALUE_THRESHOLD < valueUsd ∧ interaction.riskLevel = "high"
      ∧ interaction.is_failed then true
  else if MEDIUM_VALUE_THRESHOLD < valueUsd ∧ interaction.is_failed then true
  else false

/-- Return type of the protocol analyzer. -/
structure ProtocolAnalysisResult where
  gpt_analysis : String
  risk_score : ℚ
  key_findings : List String
  recommendations : List String

/-- The extracted protocol data (`extractProtocolData` output) as consumed by
the branch logic and the fallback scorer: the interaction list, the keys of
the per-protocol count map, the flagged high-risk transactions, the total
volume and the unique-protocol count. -/
structure ProtocolData where
  protocolInteractions : List ProtocolInteraction
  protocolCountKeys : List String
  riskTransactions : List ProtocolInteraction
  totalVolume : ℚ
  uniqueProtocols : ℕ

/-- The fixed result returned by `analyzeWalletProtocols` when no protocol
interactions were found. -/
def noProtocolsResult : ProtocolAnalysisResult :=
  { gpt_analysis := "No significant protocol interactions detected. The wallet appears to primarily use basic Ethereum functionality (token transfers, native transactions) without extensive DeFi or protocol engagement."
    risk_score := 5
    key_findings :=
      ["Minimal protocol exposure", "Basic transaction patterns",
       "Low smart contract risk", "Conservative usage patterns"]
    recommendations :=
      ["Current approach minimizes protocol risks",
       "Consider exploring established DeFi protocols for yield opportunities",
       "If expanding to DeFi, start with tier-1 protocols like Aave or Uniswap",
       "Maintain current conservative approach if risk tolerance is low"] }

/-- How `analyzeWalletProtocols` proceeds after extracting the protocol data:
the empty-interaction shortcut, or the full enhancement + scoring path. -/
inductive ProtocolAnalysisOutcome
  | shortcut (result : ProtocolAnalysisResult)
  | fullAnalysis (data : ProtocolData)

/-- Embedding of the branch of `analyzeWalletProtocols` on the extracted
data: zero interactions short-circuits to `noProtocolsResult` without running
the scoring logic. -/
def analyzeWalletProtocols (protocolData : ProtocolData) : ProtocolAnalysisOutcome :=
  if protocolData.protocolInteractions.length = 0 then .shortcut noProtocolsResult
  else .fullAnalysis protocolData

/-- The `riskScore` computation of `generateFallbackProtocolAnalysis` (base 15,
capped high-risk-transaction penalty, diversification and small-value bonuses,
final clamp).  JS divides `totalVolume` by the protocol count; the `|| 0`
turns the 0/0 case into 0, as rational division by zero does here. -/
def fallbackProtocolRiskScore (data : ProtocolData) : ℚ :=
  let highRiskTxCount := data.riskTransactions.length
  let averageTransactionValue := data.totalVolume / (data.protocolCountKeys.length : ℚ)
  let score1 : ℚ :=
    if 0 < highRiskTxCount then 15 + min ((highRiskTxCount : ℚ) * 15) 60
    else 15 - 5
  let score2 : ℚ := if 5 < data.uniqueProtocols then score1 - 5 else score1
  let score3 : ℚ :=
    if 1000 < averageTransactionValue then score2
    else if averageTransactionValue < 100 then score2 - 3
    else score2
  clamp0100 score3

/-- The successful reasoning-service path of `generateGPTProtocolAnalysis`:
the returned score is `Math.max(0, Math.min(100, analysis.risk_score))`. -/
def gptProtocolAnalysisSuccess (analysis : RawSubAnalysis) : ProtocolAnalysisResult :=
  { gpt_analysis := analysis.gpt_analysis
    risk_score := max 0 (min 100 analysis.risk_score)
    key_findings := analysis.key_findings.getD []
    recommendations := analysis.recommendations.getD [] }

/-! ### Pool analyzer (class PoolAnalyzer) -/

/-- `knowledgeBase.protocolTiers.tier1.protocols` of the pool analyzer. -/
def poolTier1 : List String := ["aave", "compound", "makerdao", "uniswap", "curve", "lido"]

/-- `knowledgeBase.protocolTiers.tier2.protocols` of the pool analyzer. -/
def poolTier2 : List String := ["sushiswap", "balancer", "convex", "yearn", "synthetix", "1inch"]

/-- `knowledgeBase.protocolTiers.tier3.protocols` of the pool analyzer. -/
def poolTier3 : List String := ["pancakeswap", "quickswap", "spookyswap", "traderjoe", "frax"]

/-- The pool data consumed by the fallback pool scorer: the (lower-cased)
keys of `protocolGroups`. -/
structure PoolData where
  protocolKeys : List String

/-- The `riskScore` computation of `generateFallbackPoolAnalysis` (base 40,
tier-1 bonus, per-unknown-protocol penalty, concentration penalty or
diversification bonus, final clamp). -/
def fallbackPoolRiskScore (data : PoolData) : ℚ :=
  let protocols := data.protocolKeys
  let tier1Count := (protocols.filter (fun p => p ∈ poolTier1)).length
  let unknownCount := (protocols.filter (fun p =>
    p ∉ poolTier1 ∧ p ∉ poolTier2 ∧ p ∉ poolTier3)).length
  let score1 : ℚ := if 0 < tier1Count then 40 - 10 else 40
  let score2 : ℚ := if 0 < unknownCount then score1 + (unknownCount : ℚ) * 15 else score1
  let score3 : ℚ :=
    if protocols.length = 1 then score2 + 20
    else if 3 < protocols.length then score2 - 10
    else score2
  clamp0100 score3

/-- `risk_score` of the fixed result returned by `analyzeWalletPools` when no
DeFi positions were found (`noPoolsResult.risk_score = 0`). -/
def noPoolsRiskScore : ℚ := 0

/-- The successful reasoning-service path of `generateGPTPoolAnalysis`: the
returned score is `Math.max(0, Math.min(100, analysis.risk_score))`. -/
def gptPoolAnalysisSuccess (analysis : RawSubAnalysis) : ProtocolAnalysisResult :=
  { gpt_analysis := analysis.gpt_analysis
    risk_score := max 0 (min 100 analysis.risk_score)
    key_findings := analysis.key_findings.getD []
    recommendations := analysis.recommendations.getD [] }

/-! ### Shared lemmas -/

theorem minmax0100_nonneg (x : ℚ) : 0 ≤ min 100 (max 0 x) :=
  le_min (by norm_num) (le_max_left 0 x)

theorem minmax0100_le (x : ℚ) : min 100 (max 0 x) ≤ 100 := min_le_left 100 _

theorem maxmin0100_nonneg (x : ℚ) : 0 ≤ max 0 (min 100 x) := le_max_left 0 _

theorem maxmin0100_le (x : ℚ) : max 0 (min 100 x) ≤ 100 :=
  max_le (by norm_num) (min_le_left 100 x)

theorem fallbackAsset_risk_score_bounds (data : AssetData) :
    0 ≤ (generateFallbackAssetAnalysis data).risk_score
      ∧ (generateFallbackAssetAnalysis data).risk_score ≤ 100 := by
  have h0 : (generateFallbackAssetAnalysis data).risk_score
      = ((jsRound (clamp0100 (assetBaseScore data + 40)) : ℤ) : ℚ) := rfl
  rw [h0]
  constructor
  · exact_mod_cast jsRound_nonneg (clamp0100_nonneg (assetBaseScore data + 40))
  · exact_mod_cast jsRound_le_of_le (clamp0100_le (assetBaseScore data + 40))

/-! ### Claim theorems -/

/-- Claim C1: every risk score the system produces lies in [0,100]: the
deterministic asset scorer's clamped final score, the asset analyzer's
returned `risk_score` on the reasoning-service path and on the fallback path,
the protocol analyzer's score on both paths and on the no-interaction
shortcut, the pool analyzer's score on both paths and on the no-position
shortcut, and the final report's `overall_risk_score` and `confidence_score`
after normalization — even when the raw adjustments would sum outside the
range. -/
theorem risk_scores_clamped :
    (∀ data : AssetData,
      0 ≤ (calculateWeightedRiskScore data).score
        ∧ (calculateWeightedRiskScore data).score ≤ 100)
    ∧ (∀ (data : AssetData) (reply : Option RawSubAnalysis),
      0 ≤ (generateGPTAssetAnalysis data reply).risk_score
        ∧ (generateGPTAssetAnalysis data reply).risk_score ≤ 100)
    ∧ (∀ data : AssetData,
      0 ≤ (generateFallbackAssetAnalysis data).risk_score
        ∧ (generateFallbackAssetAnalysis data).risk_score ≤ 100)
    ∧ (∀ analysis : RawSubAnalysis,
      0 ≤ (gptProtocolAnalysisSuccess analysis).risk_score
        ∧ (gptProtocolAnalysisSuccess analysis).risk_score ≤ 100)
    ∧ (∀ data : ProtocolData,
      0 ≤ fallbackProtocolRiskScore data ∧ fallbackProtocolRiskScore data ≤ 100)
    ∧ (0 ≤ noProtocolsResult.risk_score ∧ noProtocolsResult.risk_score ≤ 100)
    ∧ (∀ analysis : RawSubAnalysis,
      0 ≤ (gptPoolAnalysisSuccess analysis).risk_score
        ∧ (gptPoolAnalysisSuccess analysis).risk_score ≤ 100)
    ∧ (∀ data : PoolData,
      0 ≤ fallbackPoolRiskScore data ∧ fallbackPoolRiskScore data ≤ 100)
    ∧ (0 ≤ noPoolsRiskScore ∧ noPoolsRiskScore ≤ 100)
    ∧ (∀ raw : RawFinalAnalysis,
      (0 ≤ (validateAndNormalizeFinalAnalysis raw).overall_risk_score
        ∧ (validateAndNormalizeFinalAnalysis raw).overall_risk_score ≤ 100)
      ∧ (0 ≤ (validateAndNormalizeFinalAnalysis raw).confidence_score
        ∧ (validateAndNormalizeFinalAnalysis raw).confidence_score ≤ 100)) := by
  refine ⟨?_, ?_, ?_, ?_, ?_, ?_, ?_, ?_, ?_, ?_⟩
  · exact fun data => ⟨clamp0100_nonneg _, clamp0100_le _⟩
  · intro data reply
    match reply with
    | none => exact fallbackAsset_risk_score_bounds data
    | some analysis =>
      by_cases h : analysis.gpt_analysis = ""
      · simp only [generateGPTAssetAnalysis, h, if_true]
        exact fallbackAsset_risk_score_bounds data
      · simp only [generateGPTAssetAnalysis, h, if_false]
        exact ⟨minmax0100_nonneg analysis.risk_score, minmax0100_le analysis.risk_score⟩
  · exact fun data => fallbackAsset_risk_score_bounds data
  · exact fun analysis => ⟨maxmin0100_nonneg _, maxmin0100_le _⟩
  · exact fun data => ⟨clamp0100_nonneg _, clamp0100_le _⟩
  · norm_num [noProtocolsResult]
  · exact fun analysis => ⟨maxmin0100_nonneg _, maxmin0100_le _⟩
  · exact fun data => ⟨clamp0100_nonneg _, clamp0100_le _⟩
  · norm_num [noPoolsRiskScore]
  · exact fun raw =>
      ⟨⟨maxmin0100_nonneg _, maxmin0100_le _⟩, ⟨maxmin0100_nonneg _, maxmin0100_le _⟩⟩

/-- Claim C2: the final aggregator's risk-level bucketing maps an integral
`overall_risk_score` as 0-20 to `very-low`, 21-40 to `low`, 41-60 to
`medium`, 61-80 to `high` and 81-100 to `very-high`; in particular 20 yields
`very-low`, 21 `low`, 60 `medium`, 61 `high`, 80 `high` and 81 `very-high`. -/
theorem risk_level_bucket_boundaries :
    (∀ n : ℤ, 0 ≤ n → n ≤ 20 → normalizeRiskLevel (.num (n : ℚ)) = "very-low")
    ∧ (∀ n : ℤ, 21 ≤ n → n ≤ 40 → normalizeRiskLevel (.num (n : ℚ)) = "low")
    ∧ (∀ n : ℤ, 41 ≤ n → n ≤ 60 → normalizeRiskLevel (.num (n : ℚ)) = "medium")
    ∧ (∀ n : ℤ, 61 ≤ n → n ≤ 80 → normalizeRiskLevel (.num (n : ℚ)) = "high")
    ∧ (∀ n : ℤ, 81 ≤ n → n ≤ 100 → normalizeRiskLevel (.num (n : ℚ)) = "very-high")
    ∧ normalizeRiskLevel (.num 20) = "very-low"
    ∧ normalizeRiskLevel (.num 21) = "low"
    ∧ normalizeRiskLevel (.num 60) = "medium"
    ∧ normalizeRiskLevel (.num 61) = "high"
    ∧ normalizeRiskLevel (.num 80) = "high"
    ∧ normalizeRiskLevel (.num 81) = "very-high" := by
  refine ⟨?_, ?_, ?_, ?_, ?_, ?_, ?_, ?_, ?_, ?_, ?_⟩
  · intro n _ h2
    have c1 : ((n : ℚ) ≤ 20) := by exact_mod_cast h2
    simp [normalizeRiskLevel, bucketForScore, c1]
  · intro n h1 h2
    have c1 : ¬((n : ℚ) ≤ 20) := not_le.mpr (by exact_mod_cast (show (20 : ℤ) < n by linarith))
    have c2 : ((n : ℚ) ≤ 40) := by exact_mod_cast h2
    simp [normalizeRiskLevel, bucketForScore, c1, c2]
  · intro n h1 h2
    have c1 : ¬((n : ℚ) ≤ 20) := not_le.mpr (by exact_mod_cast (show (20 : ℤ) < n by linarith))
    have c2 : ¬((n : ℚ) ≤ 40) := not_le.mpr (by exact_mod_cast (show (40 : ℤ) < n by linarith))
    have c3 : ((n : ℚ) ≤ 60) := by exact_mod_cast h2
    simp [normalizeRiskLevel, bucketForScore, c1, c2, c3]
  · intro n h1 h2
    have c1 : ¬((n : ℚ) ≤ 20) := not_le.mpr (by exact_mod_cast (show (20 : ℤ) < n by linarith))
    have c2 : ¬((n : ℚ) ≤ 40) := not_le.mpr (by exact_mod_cast (show (40 : ℤ) < n by linarith))
    have c3 : ¬((n : ℚ) ≤ 60) := not_le.mpr (by exact_mod_cast (show (60 : ℤ) < n by linarith))
    have c4 : ((n : ℚ) ≤ 80) := by exact_mod_cast h2
    simp [normalizeRiskLevel, bucketForScore, c1, c2, c3, c4]
  · intro n h1 _
    have c1 : ¬((n : ℚ) ≤ 20) := not_le.mpr (by exact_mod_cast (show (20 : ℤ) < n by linarith))
    have c2 : ¬((n : ℚ) ≤ 40) := not_le.mpr (by exact_mod_cast (show (40 : ℤ) < n by linarith))
    have c3 : ¬((n : ℚ) ≤ 60) := not_le.mpr (by exact_mod_cast (show (60 : ℤ) < n by linarith))
    have c4 : ¬((n : ℚ) ≤ 80) := not_le.mpr (by exact_mod_cast (show (80 : ℤ) < n by linarith))
    simp [normalizeRiskLevel, bucketForScore, c1, c2, c3, c4]
  · norm_num [normalizeRiskLevel, bucketForScore]
  · norm_num [normalizeRiskLevel, bucketForScore]
  · norm_num [normalizeRiskLevel, bucketForScore]
  · norm_num [normalizeRiskLevel, bucketForScore]
  · norm_num [normalizeRiskLevel, bucketForScore]
  · norm_num [normalizeRiskLevel, bucketForScore]

/-- Witness for C2: the bucket theorem applied at concrete scores inside each
band. -/
theorem risk_level_bucket_boundaries_witness :
    normalizeRiskLevel (.num ((10 : ℤ) : ℚ)) = "very-low"
      ∧ normalizeRiskLevel (.num ((35 : ℤ) : ℚ)) = "low"
      ∧ normalizeRiskLevel (.num ((50 : ℤ) : ℚ)) = "medium"
      ∧ normalizeRiskLevel (.num ((75 : ℤ) : ℚ)) = "high"
      ∧ normalizeRiskLevel (.num ((95 : ℤ) : ℚ)) = "very-high" :=
  ⟨risk_level_bucket_boundaries.1 10 (by norm_num) (by norm_num),
   risk_level_bucket_boundaries.2.1 35 (by norm_num) (by norm_num),
   risk_level_bucket_boundaries.2.2.1 50 (by norm_num) (by norm_num),
   risk_level_bucket_boundaries.2.2.2.1 75 (by norm_num) (by norm_num),
   risk_level_bucket_boundaries.2.2.2.2.1 95 (by norm_num) (by norm_num)⟩

/-- Claim C3: `shouldRefreshData` returns true for an absent report; for a
present report with the default `maxAgeMinutes = 30` it returns true exactly
when now minus last-updated exceeds 30 minutes, so it is false at exactly
last-updated + 29 minutes and true at last-updated + 31 minutes. -/
theorem staleness_boundary :
    (∀ (now maxAgeMinutes : ℚ), shouldRefreshData now none maxAgeMinutes = true)
    ∧ (∀ (now : ℚ) (d : WalletAnalysisData),
      shouldRefreshData now (some d) 30 = true ↔ 30 * (1000 * 60) < now - d.last_updated)
    ∧ (∀ d : WalletAnalysisData,
      shouldRefreshData (d.last_updated + 29 * (1000 * 60)) (some d) 30 = false)
    ∧ (∀ d : WalletAnalysisData,
      shouldRefreshData (d.last_updated + 31 * (1000 * 60)) (some d) 30 = true) := by
  have key : ∀ (now : ℚ) (d : WalletAnalysisData),
      shouldRefreshData now (some d) 30 = true ↔ 30 * (1000 * 60) < now - d.last_updated := by
    intro now d
    simp only [shouldRefreshData, decide_eq_true_eq]
    rw [lt_div_iff₀ (by norm_num : (0 : ℚ) < 1000 * 60)]
  refine ⟨fun _ _ => rfl, key, ?_, ?_⟩
  · intro d
    rw [Bool.eq_false_iff]
    intro hc
    have := (key _ d).mp hc
    linarith
  · intro d
    exact (key _ d).mpr (by linarith)

/-- A concrete persisted report last updated at timestamp 0 (milliseconds). -/
def sampleReport : WalletAnalysisData :=
  { address := "0xabc", last_updated := 0,
    analysis := { assets := none, pools := none, protocols := none } }

/-- Witness for C3: the staleness boundary evaluated on `sampleReport`. -/
theorem staleness_boundary_witness :
    shouldRefreshData (sampleReport.last_updated + 29 * (1000 * 60)) (some sampleReport) 30 = false
      ∧ shouldRefreshData (sampleReport.last_updated + 31 * (1000 * 60)) (some sampleReport) 30 = true
      ∧ shouldRefreshData 0 none 30 = true :=
  ⟨staleness_boundary.2.2.1 sampleReport, staleness_boundary.2.2.2 sampleReport,
   staleness_boundary.1 0 30⟩

/-- Arithmetic form of the scam penalty in terms of the flagged-token count
and the dust count. -/
theorem scamPenalty_eq (l : List Asset) :
    scamPenalty l =
      if 0 < l.length then
        if ((l.length : ℚ) * 0.8) ≤ ((l.filter (fun t => t.hasLowBalance)).length : ℚ) then
          (l.length : ℚ) * 2 * 0.5
        else (l.length : ℚ) * 2
      else 0 := by
  simp only [scamPenalty, mostlyDust, weightScamTokenQuantity, decide_eq_true_eq]

/-- Claim C4: holding the count of scam-flagged tokens fixed, replacing
non-dust scam tokens by dust-balance instances (which can only grow the dust
count) never increases the aggregate scam penalty; and whenever at least 80%
of the scam-flagged tokens are dust-balance the aggregate penalty for the run
is halved (`scamPenalty = count * 2 * 0.5`). -/
theorem dust_mitigation :
    (∀ l₁ l₂ : List Asset,
      l₁.length = l₂.length →
      (l₁.filter (fun t => t.hasLowBalance)).length
          ≤ (l₂.filter (fun t => t.hasLowBalance)).length →
      scamPenalty l₂ ≤ scamPenalty l₁)
    ∧ (∀ l : List Asset,
      ((l.length : ℚ) * 0.8) ≤ ((l.filter (fun t => t.hasLowBalance)).length : ℚ) →
      scamPenalty l = (l.length : ℚ) * 2 * 0.5) := by
  constructor
  · intro l₁ l₂ hlen hdust
    rw [scamPenalty_eq, scamPenalty_eq, ← hlen]
    by_cases hpos : 0 < l₁.length
    · rw [if_pos hpos, if_pos hpos]
      have hdq : ((l₁.filter (fun t => t.hasLowBalance)).length : ℚ)
          ≤ ((l₂.filter (fun t => t.hasLowBalance)).length : ℚ) := by exact_mod_cast hdust
      have hbase : (0 : ℚ) ≤ (l₁.length : ℚ) * 2 := by positivity
      by_cases h2 : ((l₁.length : ℚ) * 0.8) ≤ ((l₂.filter (fun t => t.hasLowBalance)).length : ℚ)
      · rw [if_pos h2]
        by_cases h1 : ((l₁.length : ℚ) * 0.8) ≤ ((l₁.filter (fun t => t.hasLowBalance)).length : ℚ)
        · rw [if_pos h1]
        · rw [if_neg h1]; linarith
      · have h1 : ¬((l₁.length : ℚ) * 0.8) ≤ ((l₁.filter (fun t => t.hasLowBalance)).length : ℚ) := by
          intro hc; exact h2 (le_trans hc hdq)
        rw [if_neg h2, if_neg h1]
    · rw [if_neg hpos, if_neg hpos]
  · intro l hl
    rw [scamPenalty_eq]
    by_cases hpos : 0 < l.length
    · rw [if_pos hpos, if_pos hl]
    · have h0 : l.length = 0 := Nat.eq_zero_of_not_pos hpos
      rw [if_neg hpos, h0]
      norm_num

/-- A scam-pattern token with a meaningful balance. -/
def sampleScamNonDust : Asset :=
  { chain := "ethereum", symbol := "MOONSAFE", type := .token, verified := false,
    possibleSpam := true, isEstablished := false, hasLowBalance := false,
    isLikelyAirdrop := false }

/-- The same scam-pattern token with a dust balance. -/
def sampleScamDust : Asset :=
  { chain := "ethereum", symbol := "MOONSAFE", type := .token, verified := false,
    possibleSpam := true, isEstablished := false, hasLowBalance := true,
    isLikelyAirdrop := true }

/-- Witness for C4: replacing the single non-dust scam token by its dust
variant does not increase the penalty, and a fully-dust run is halved. -/
theorem dust_mitigation_witness :
    scamPenalty [sampleScamDust] ≤ scamPenalty [sampleScamNonDust]
      ∧ scamPenalty [sampleScamDust, sampleScamDust]
        = (([sampleScamDust, sampleScamDust] : List Asset).length : ℚ) * 2 * 0.5 :=
  ⟨dust_mitigation.1 [sampleScamNonDust] [sampleScamDust] rfl (by decide),
   dust_mitigation.2 [sampleScamDust, sampleScamDust] (by norm_num [sampleScamDust])⟩

/-- Evaluation of the asset scorer on an empty holdings list: the normal
scoring path applies the limited-diversity penalty (+5) and, when more than
one chain is counted, the multi-chain bonus (−3) to the base 40. -/
theorem calculateWeightedRiskScore_empty (tc : ℕ) :
    (calculateWeightedRiskScore { assetCount := 0, assets := [], totalChains := tc }).score
        = (if 1 < tc then (42 : ℚ) else 45)
      ∧ (calculateWeightedRiskScore { assetCount := 0, assets := [], totalChains := tc }).factors
        = "Limited token diversity (0 meaningful tokens)"
            :: (if 1 < tc then ["Multi-chain diversification (" ++ toString tc ++ " chains)"]
                else []) := by
  constructor
  · by_cases h : 1 < tc <;>
      simp [calculateWeightedRiskScore, assetBaseScore, scamPenalty, clamp0100,
        min_def, max_def, h] <;>
      norm_num
  · by_cases h : 1 < tc <;>
      simp [calculateWeightedRiskScore, assetFactors, h] <;> rfl

/-- Counterexample for C5: on the empty-holdings input produced for an empty
wallet (all three chain entries present, zero assets) the asset scorer does
NOT take a dedicated no-data branch: it runs the normal scoring path, returns
42 — a score in the `medium` bucket, not a fixed low-risk fallback — and its
findings are a limited-diversity penalty and the multi-chain bonus, with no
no-exposure finding. -/
theorem empty_holdings_counterexample :
    (calculateWeightedRiskScore { assetCount := 0, assets := [], totalChains := 3 }).score = 42
      ∧ (calculateWeightedRiskScore { assetCount := 0, assets := [], totalChains := 3 }).factors
        = ["Limited token diversity (0 meaningful tokens)",
           "Multi-chain diversification (3 chains)"]
      ∧ normalizeRiskLevel (.num
          (calculateWeightedRiskScore { assetCount := 0, assets := [], totalChains := 3 }).score)
        = "medium" := by
  obtain ⟨hs, hf⟩ := calculateWeightedRiskScore_empty 3
  norm_num at hs hf
  refine ⟨hs, hf, ?_⟩
  rw [hs]
  norm_num [normalizeRiskLevel, bucketForScore]

/-- Claim C5 (amended): for every input whose holdings list is empty the
asset scorer raises no error and deterministically returns the normal-path
score 45 − (3 if more than one chain is counted), i.e. 42 or 45 — a
medium-bucket value, not a dedicated low-risk no-data fallback — and the only
findings are the limited-diversity one plus, possibly, the multi-chain
bonus; no no-exposure finding is emitted. -/
theorem empty_holdings_normal_path (tc : ℕ) :
    (calculateWeightedRiskScore { assetCount := 0, assets := [], totalChains := tc }).score
        = (if 1 < tc then (42 : ℚ) else 45)
      ∧ (calculateWeightedRiskScore { assetCount := 0, assets := [], totalChains := tc }).factors
        = "Limited token diversity (0 meaningful tokens)"
            :: (if 1 < tc then ["Multi-chain diversification (" ++ toString tc ++ " chains)"]
                else [])
      ∧ normalizeRiskLevel (.num
          (calculateWeightedRiskScore { assetCount := 0, assets := [], totalChains := tc }).score)
        = "medium" := by
  obtain ⟨hs, hf⟩ := calculateWeightedRiskScore_empty tc
  refine ⟨hs, hf, ?_⟩
  rw [hs]
  by_cases h : 1 < tc <;> simp [h] <;> norm_num [normalizeRiskLevel, bucketForScore]

/-- Claim C6: when the reasoning-service path fails, the final aggregator's
fallback sets `confidence_score = clamp(25 × count of available sub-analyses,
30, 70)`; in particular with exactly 2 of the 3 sub-analyses present the
confidence equals 50. -/
theorem fallback_confidence_formula (w : WalletAnalysisData) :
    (generateFallbackFinalAnalysis w).confidence_score
        = max 30 (min 70 (25 * (countAvailable w.analysis : ℚ)))
      ∧ (countAvailable w.analysis = 2 →
        (generateFallbackFinalAnalysis w).confidence_score = 50) := by
  have h : (generateFallbackFinalAnalysis w).confidence_score
      = max 30 (min 70 (25 * (countAvailable w.analysis : ℚ))) := by
    rcases w with ⟨addr, lu, a, p, r⟩
    cases a <;> cases p <;> cases r <;>
      simp [generateFallbackFinalAnalysis, countAvailable, mul_comm]
  refine ⟨h, fun h2 => ?_⟩
  rw [h, h2]
  norm_num [min_def, max_def]

/-- A wallet report with exactly two sub-analyses (assets and pools)
available. -/
def sampleTwoAnalyses : WalletAnalysisData :=
  { address := "0xabc", last_updated := 0,
    analysis :=
      { assets := some { gpt_analysis := "a", risk_score := 30,
                         key_findings := [], recommendations := [] }
        pools := some { gpt_analysis := "p", risk_score := 20,
                        key_findings := [], recommendations := [] }
        protocols := none } }

/-- Witness for C6: with exactly 2 of 3 sub-analyses present the fallback
confidence is 50. -/
theorem fallback_confidence_formula_witness :
    (generateFallbackFinalAnalysis sampleTwoAnalyses).confidence_score = 50 :=
  (fallback_confidence_formula sampleTwoAnalyses).2 rfl

/-- Claim C7: the high-risk-transaction classifier returns true iff
(v > 10000 and tier = high) or (v > 1000 and tier = high and failed) or
(v > 1000 and failed), with the medium and high thresholds at $1,000 and
$10,000. -/
theorem high_risk_transaction_iff (i : ProtocolInteraction) (v : ℚ) :
    isHighRiskTransaction i v = true ↔
      (10000 < v ∧ i.riskLevel = "high")
        ∨ (1000 < v ∧ i.riskLevel = "high" ∧ i.is_failed = true)
        ∨ (1000 < v ∧ i.is_failed = true) := by
  simp only [isHighRiskTransaction, HIGH_VALUE_THRESHOLD, MEDIUM_VALUE_THRESHOLD]
  split_ifs with h1 h2 h3 <;> simp_all

/-- A high-tier interaction with an unknown contract. -/
def sampleHighTierInteraction : ProtocolInteraction :=
  { type := "smart_contract", protocol := "0xdeadbeef", riskLevel := "high",
    chain := "ethereum", is_failed := false }

/-- Witness for C7: a $20,000 interaction with a high-risk-tier protocol is
classified as high risk. -/
theorem high_risk_transaction_iff_witness :
    isHighRiskTransaction sampleHighTierInteraction 20000 = true :=
  (high_risk_transaction_iff sampleHighTierInteraction 20000).mpr
    (Or.inl ⟨by norm_num, rfl⟩)

/-- Counterexample for C8: a storage read failure in `loadWalletData` is NOT
surfaced to the caller — the catch block converts it into the absent result
(`null`), exactly as for a missing file. -/
theorem load_read_failure_counterexample :
    loadWalletData (FileReadState.failure { message := "EIO: disk read failure" })
      = Except.ok none := rfl

/-- Claim C8 (amended): `loadWalletData` returns absent (`null`) when no
report file exists, without raising an error; but an unexpected storage read
failure is also caught and converted into the absent result, so load never
surfaces an IO error.  Only `saveWalletData` re-throws storage failures. -/
theorem load_never_surfaces_error :
    (∀ f : FileReadState, ∃ r, loadWalletData f = Except.ok r)
      ∧ loadWalletData FileReadState.missing = Except.ok none
      ∧ (∀ e, loadWalletData (FileReadState.failure e) = Except.ok none)
      ∧ (∀ d, loadWalletData (FileReadState.content d) = Except.ok (some d))
      ∧ (∀ e, saveWalletData (WriteOutcome.failure e) = Except.error e)
      ∧ saveWalletData WriteOutcome.success = Except.ok () := by
  refine ⟨?_, rfl, fun e => rfl, fun d => rfl, fun e => rfl, rfl⟩
  intro f
  cases f <;> exact ⟨_, rfl⟩

/-- Claim C9: for every wallet whose extracted protocol-interaction list is
empty, the protocol analyzer takes a shortcut that bypasses the full scoring
logic and returns the fixed result with `risk_score` exactly 5, whose
analysis text states that no significant protocol interactions were detected
(with matching minimal-exposure findings); no error is raised. -/
theorem no_protocol_interactions_shortcut (pd : ProtocolData)
    (h : pd.protocolInteractions = []) :
    analyzeWalletProtocols pd = .shortcut noProtocolsResult
      ∧ noProtocolsResult.risk_score = 5
      ∧ noProtocolsResult.gpt_analysis
        = "No significant protocol interactions detected. The wallet appears to primarily use basic Ethereum functionality (token transfers, native transactions) without extensive DeFi or protocol engagement."
      ∧ noProtocolsResult.key_findings
        = ["Minimal protocol exposure", "Basic transaction patterns",
           "Low smart contract risk", "Conservative usage patterns"] := by
  refine ⟨?_, rfl, rfl, rfl⟩
  simp [analyzeWalletProtocols, h]

/-- Protocol data extracted from a wallet with no protocol interactions. -/
def sampleEmptyProtocolData : ProtocolData :=
  { protocolInteractions := [], protocolCountKeys := [], riskTransactions := [],
    totalVolume := 0, uniqueProtocols := 0 }

/-- Witness for C9: the shortcut taken on concrete empty protocol data. -/
theorem no_protocol_interactions_shortcut_witness :
    analyzeWalletProtocols sampleEmptyProtocolData = .shortcut noProtocolsResult
      ∧ noProtocolsResult.risk_score = 5 :=
  ⟨(no_protocol_interactions_shortcut sampleEmptyProtocolData rfl).1,
   (no_protocol_interactions_shortcut sampleEmptyProtocolData rfl).2.1⟩

/-- Claim C10: every final analysis produced from the reasoning-service path
contains at most 10 alerts; every surviving alert's severity is one of
low/medium/high/critical; an unrecognized or absent severity is coerced to
`medium`; and every surviving alert carries the (string) message of an input
entry that had one — entries lacking a message are dropped. -/
theorem final_alerts_validated (raw : RawFinalAnalysis) :
    (validateAndNormalizeFinalAnalysis raw).alerts.length ≤ 10
      ∧ (∀ a ∈ (validateAndNormalizeFinalAnalysis raw).alerts,
        a.severity ∈ alertSeverities
          ∧ ∃ sev msg, RawAlert.obj sev (some msg) ∈ raw.alerts ∧ msg ≠ "" ∧ a.message = msg)
      ∧ (∀ sev msg, sev ∉ alertSeverities →
        (normalizeAlert (RawAlert.obj (some sev) msg)).severity = "medium")
      ∧ (∀ msg, (normalizeAlert (RawAlert.obj none msg)).severity = "medium") := by
  have halerts : (validateAndNormalizeFinalAnalysis raw).alerts = validateAlerts raw.alerts := rfl
  refine ⟨?_, ?_, ?_, ?_⟩
  · rw [halerts]
    exact List.length_take_le _ _
  · intro a ha
    rw [halerts] at ha
    have ha' : a ∈ ((raw.alerts.filter keepAlert).map normalizeAlert) :=
      List.mem_of_mem_take ha
    obtain ⟨x, hx, hfx⟩ := List.mem_map.mp ha'
    obtain ⟨hmem, hkeep⟩ := List.mem_filter.mp hx
    cases x with
    | nonObject => simp [keepAlert] at hkeep
    | obj sev msg =>
      cases msg with
      | none => simp [keepAlert] at hkeep
      | some m =>
        have hm : m ≠ "" := by simpa [keepAlert] using hkeep
        subst hfx
        refine ⟨?_, sev, m, hmem, hm, rfl⟩
        cases sev with
        | none => simp [normalizeAlert, alertSeverities]
        | some s =>
          by_cases hs : s ∈ alertSeverities
          · simp only [normalizeAlert, if_pos hs]
            exact hs
          · simp only [normalizeAlert, if_neg hs]
            simp [alertSeverities]
  · intro sev msg hs
    simp [normalizeAlert, hs]
  · intro msg
    simp [normalizeAlert]

/-- A raw reasoning-service reply carrying an alert with an unrecognized
severity and an alert with no message. -/
def sampleRawFinal : RawFinalAnalysis :=
  { overall_risk_score := some 42, risk_level := some "medium",
    confidence_score := some 80, gpt_summary := some "ok",
    key_risks := some [], recommendations := some [],
    alerts := [RawAlert.obj (some "bogus") (some "check this"),
               RawAlert.obj (some "high") none],
    multiChainInfo := none }

/-- Witness for C10: the alert bound holds on `sampleRawFinal`, and the
unrecognized severity of its first alert is coerced to `medium`. -/
theorem final_alerts_validated_witness :
    (validateAndNormalizeFinalAnalysis sampleRawFinal).alerts.length ≤ 10
      ∧ (normalizeAlert (RawAlert.obj (some "bogus") (some "check this"))).severity
        = "medium" :=
  ⟨(final_alerts_validated sampleRawFinal).1,
   (final_alerts_validated sampleRawFinal).2.2.1 "bogus" (some "check this") (by decide)⟩

end RiskAgent
